import Mathlib

/-!
Verification development for the storage core of a per-user sync server.

The repository provides three source files: the distributed-backend batch
engine (src/db/spanner/batch.rs), the test suite of the relational record
store (src/db/mysql/test.rs), and an application-server shell.  The batch
engine is embedded below directly from its source.  The relational record
store implementation itself is absent from the tree, so its operations are
modelled from the specification; wherever the tests in src/db/mysql/test.rs
pin a behaviour (notably the expiry arithmetic of put_bso), the model follows
the tests.
-/

set_option linter.unusedVariables false

/-! ## Relational record store -/

/-- Modelled from the spec: DEFAULT_BSO_TTL is "a large value (years)" applied
when a put supplies no ttl.  The mysql models file defining the constant is
absent from the tree; its exact magnitude is irrelevant to the claims. -/
def DEFAULT_BSO_TTL : Int := 3153600000000

/-- Input record of put_bso, as described in spec section 6 and constructed by
the pbso helper of src/db/mysql/test.rs. -/
structure PutBso where
  user_id : Nat
  collection_id : Int
  id : String
  payload : Option String
  sortindex : Option Int
  ttl : Option Int
  modified : Int
deriving DecidableEq

/-- Stored row of the bso table: sortindex, payload, modified, expiry. -/
structure BsoRecord where
  sortindex : Option Int
  payload : String
  modified : Int
  expiry : Int
deriving DecidableEq

/-- Primary key (user, collection_id, bso_id). -/
abbrev BsoKey := Nat × Int × String

/-- The bso table, as an association list keyed by the primary key. -/
abbrev BsoStore := List (BsoKey × BsoRecord)

/-- Lookup of a stored record by its primary key. -/
def findBso (st : BsoStore) (k : BsoKey) : Option BsoRecord :=
  (st.find? (fun e => decide (e.1 = k))).map (fun e => e.2)

/-- Modelled from the spec: put_bso upsert with partial-field rules
(spec section 4.2; the mysql models file is absent).  A missing payload
stores the empty string on insert and leaves payload and modified unchanged
on update; a missing sortindex or ttl leaves the stored value unchanged on
update.  The expiry arithmetic follows the tests in src/db/mysql/test.rs,
which assert expiry = modified + ttl with the ttl added directly to the
millisecond timestamp. -/
def put_bso (p : PutBso) (st : BsoStore) : BsoStore :=
  match findBso st (p.user_id, p.collection_id, p.id) with
  | none =>
      ((p.user_id, p.collection_id, p.id),
        { sortindex := p.sortindex
          payload := p.payload.getD ""
          modified := p.modified
          expiry := p.modified + p.ttl.getD DEFAULT_BSO_TTL }) :: st
  | some old =>
      ((p.user_id, p.collection_id, p.id),
        { sortindex := match p.sortindex with
            | some s => some s
            | none => old.sortindex
          payload := p.payload.getD old.payload
          modified := if p.payload.isSome then p.modified else old.modified
          expiry := match p.ttl with
            | some t => p.modified + t
            | none => old.expiry }) ::
        st.filter (fun e => decide (e.1 ≠ (p.user_id, p.collection_id, p.id)))

/-- Modelled from the spec: get_bso returns None when there is no row or the
row is expired (a record with expiry not exceeding now is logically deleted). -/
def get_bso (st : BsoStore) (now : Int) (k : BsoKey) : Option BsoRecord :=
  match findBso st k with
  | some r => if now < r.expiry then some r else none
  | none => none

theorem findBso_cons_self (k : BsoKey) (r : BsoRecord) (rest : BsoStore) :
    findBso ((k, r) :: rest) k = some r := by
  unfold findBso
  rw [List.find?_cons_of_pos _ (by simp)]
  rfl

/-! ### Claims C1 and C2 -/

/-- Concrete put input used to exhibit the failure of claim C1 as stated:
a fresh record with ttl 15 and modified 1000. -/
def c1PutInput : PutBso :=
  { user_id := 1, collection_id := 1, id := "x", payload := some "hello",
    sortindex := some 1, ttl := some 15, modified := 1000 }

/-- C1 fails as stated: after putting a fresh record with modified = 1000 and
ttl = 15, get_bso returns expiry = 1015 (modified + ttl, exactly as the src
tests assert), not modified + ttl*1000 = 16000 as the claim requires. -/
theorem C1_counterexample :
    (get_bso (put_bso c1PutInput []) 1000 (1, 1, "x")).map (fun r => r.expiry)
        = some 1015
    ∧ ¬ ((get_bso (put_bso c1PutInput []) 1000 (1, 1, "x")).map (fun r => r.expiry)
        = some (1000 + 15 * 1000)) := by
  constructor
  · decide
  · decide

/-- C1 (amended): putting a fresh record that supplies a payload and a ttl and
then getting it returns the stored record with the same payload, sortindex and
modified, and with expiry = modified + ttl (the ttl is added directly to the
millisecond timestamp, with no scaling by 1000). -/
theorem C1_put_get_roundtrip (p : PutBso) (st : BsoStore) (now t : Int) (pl : String)
    (hnew : findBso st (p.user_id, p.collection_id, p.id) = none)
    (httl : p.ttl = some t) (hpl : p.payload = some pl)
    (hnow : now < p.modified + t) :
    get_bso (put_bso p st) now (p.user_id, p.collection_id, p.id)
      = some { sortindex := p.sortindex, payload := pl,
               modified := p.modified, expiry := p.modified + t } := by
  unfold put_bso
  rw [hnew]
  unfold get_bso
  rw [findBso_cons_self]
  simp [httl, hpl, hnow]

/-- Closed instance discharging the hypotheses of C1_put_get_roundtrip. -/
theorem C1_put_get_roundtrip_witness :
    (findBso [] (1, 1, "x") = none
      ∧ c1PutInput.ttl = some 15
      ∧ c1PutInput.payload = some "hello"
      ∧ (1000 : Int) < c1PutInput.modified + 15)
    ∧ get_bso (put_bso c1PutInput []) 1000
        (c1PutInput.user_id, c1PutInput.collection_id, c1PutInput.id)
      = some { sortindex := c1PutInput.sortindex, payload := "hello",
               modified := c1PutInput.modified,
               expiry := c1PutInput.modified + 15 } :=
  ⟨⟨by decide, by decide, by decide, by decide⟩,
    C1_put_get_roundtrip c1PutInput [] 1000 15 "hello"
      (by decide) (by decide) (by decide) (by decide)⟩

/-- C2: a put_bso that omits its payload leaves the stored record's modified
and payload unchanged, and sets expiry to the incoming put's modified plus the
supplied ttl when a ttl is supplied, leaving expiry unchanged otherwise
(sortindex is replaced only when supplied). -/
theorem C2_ttl_touch_frame (p : PutBso) (st : BsoStore) (old : BsoRecord)
    (hold : findBso st (p.user_id, p.collection_id, p.id) = some old)
    (hnp : p.payload = none) :
    findBso (put_bso p st) (p.user_id, p.collection_id, p.id)
      = some { sortindex := match p.sortindex with
                 | some s => some s
                 | none => old.sortindex
               payload := old.payload
               modified := old.modified
               expiry := match p.ttl with
                 | some t => p.modified + t
                 | none => old.expiry } := by
  unfold put_bso
  rw [hold]
  rw [findBso_cons_self]
  simp [hnp]

/-- Closed instance discharging the hypotheses of C2_ttl_touch_frame, mirroring
the bso_modified_not_changed_on_ttl_touch test: a stored record with modified
900, then a ttl-only put at modified 1000 with ttl 15. -/
theorem C2_ttl_touch_frame_witness :
    (findBso [((1, 1, "x"), ⟨some 1, "hello", 900, 910⟩)] (1, 1, "x")
        = some ⟨some 1, "hello", 900, 910⟩
      ∧ (none : Option String) = none)
    ∧ findBso
        (put_bso { user_id := 1, collection_id := 1, id := "x", payload := none,
                   sortindex := none, ttl := some 15, modified := 1000 }
          [((1, 1, "x"), ⟨some 1, "hello", 900, 910⟩)])
        (1, 1, "x")
      = some { sortindex := some 1, payload := "hello",
               modified := 900, expiry := 1000 + 15 } :=
  ⟨⟨by decide, rfl⟩,
    C2_ttl_touch_frame
      { user_id := 1, collection_id := 1, id := "x", payload := none,
        sortindex := none, ttl := some 15, modified := 1000 }
      [((1, 1, "x"), ⟨some 1, "hello", 900, 910⟩)]
      ⟨some 1, "hello", 900, 910⟩ (by decide) (by decide)⟩

/-! ### Query and paging engine (claim C6) -/

/-- Sort modes of get_bsos.  The source's Sorting has a variant named None;
it is rendered here as unsorted. -/
inductive Sorting where
  | newest
  | oldest
  | index
  | unsorted
deriving DecidableEq

/-- Result row of get_bsos, per spec section 6. -/
structure Bso where
  id : String
  modified : Int
  payload : String
  sortindex : Option Int
  expiry : Int
deriving DecidableEq

/-- Modelled from the spec: the comparison underlying each sort mode.
Newest is modified descending, Oldest modified ascending, Index is sortindex
descending with nulls last then modified descending, and the unsorted mode
keeps the store order. -/
def sortLe : Sorting → Bso → Bso → Bool
  | .newest, a, b => decide (b.modified ≤ a.modified)
  | .oldest, a, b => decide (a.modified ≤ b.modified)
  | .index, a, b =>
      match a.sortindex, b.sortindex with
      | some x, some y => if x = y then decide (b.modified ≤ a.modified) else decide (y ≤ x)
      | some _, none => true
      | none, some _ => false
      | none, none => decide (b.modified ≤ a.modified)
  | .unsorted, _, _ => true

def insertSorted (le : Bso → Bso → Bool) (x : Bso) : List Bso → List Bso
  | [] => [x]
  | y :: ys => if le x y then x :: y :: ys else y :: insertSorted le x ys

def sortBsos (le : Bso → Bso → Bool) : List Bso → List Bso
  | [] => []
  | x :: xs => insertSorted le x (sortBsos le xs)

theorem length_insertSorted (le : Bso → Bso → Bool) (x : Bso) (l : List Bso) :
    (insertSorted le x l).length = l.length + 1 := by
  induction l with
  | nil => rfl
  | cons y ys ih =>
      unfold insertSorted
      by_cases h : le x y = true
      · simp [h]
      · simp [h, ih]

theorem length_sortBsos (le : Bso → Bso → Bool) (l : List Bso) :
    (sortBsos le l).length = l.length := by
  induction l with
  | nil => rfl
  | cons x xs ih => simp [sortBsos, length_insertSorted, ih]

/-- Parameter record of get_bsos, per spec section 6. -/
structure GetBsosParams where
  user_id : Nat
  collection_id : Int
  ids : List String
  ttl_floor : Int
  newer : Int
  sort : Sorting
  limit : Int
  offset : Int

/-- Projection of a stored row to the wire Bso record. -/
def toBso (e : BsoKey × BsoRecord) : Bso :=
  { id := e.1.2.2, modified := e.2.modified, payload := e.2.payload,
    sortindex := e.2.sortindex, expiry := e.2.expiry }

/-- Modelled from the spec: the get_bsos row filter, expiry above the ttl
floor, modified above the newer bound, and membership in the id set when the
set is non-empty, scoped to one user and collection. -/
def bsoMatches (p : GetBsosParams) (e : BsoKey × BsoRecord) : Bool :=
  decide (e.1.1 = p.user_id) && decide (e.1.2.1 = p.collection_id)
    && decide (p.ttl_floor < e.2.expiry) && decide (p.newer < e.2.modified)
    && (p.ids.isEmpty || decide (e.1.2.2 ∈ p.ids))

/-- All rows matching a get_bsos call, in the requested order. -/
def matchedBsos (st : BsoStore) (p : GetBsosParams) : List Bso :=
  sortBsos (sortLe p.sort) ((st.filter (bsoMatches p)).map toBso)

/-- Result record of get_bsos. -/
structure GetBsosResult where
  bsos : List Bso
  more : Bool
  offset : Int
deriving DecidableEq

/-- Modelled from the spec: get_bsos paging. A negative limit returns every
matching row with more false and offset zero; a zero limit is a probe that
returns no rows with more true when anything matches; a positive limit
returns one page and reports whether rows remain past it, echoing the
cumulative offset only in that case. -/
def get_bsos (st : BsoStore) (p : GetBsosParams) : GetBsosResult :=
  if p.limit < 0 then
    { bsos := matchedBsos st p, more := false, offset := 0 }
  else if p.limit = 0 then
    { bsos := [], more := !(matchedBsos st p).isEmpty, offset := 0 }
  else
    { bsos := ((matchedBsos st p).drop p.offset.toNat).take p.limit.toNat
      more := decide (p.limit.toNat < ((matchedBsos st p).drop p.offset.toNat).length)
      offset :=
        if decide (p.limit.toNat < ((matchedBsos st p).drop p.offset.toNat).length) then
          p.offset + (((matchedBsos st p).drop p.offset.toNat).take p.limit.toNat).length
        else 0 }

/-- Concrete store of three matching records used to instantiate C6. -/
def c6Store : BsoStore :=
  [((1, 1, "a"), ⟨some 1, "pa", 10, 100⟩),
   ((1, 1, "b"), ⟨some 2, "pb", 20, 100⟩),
   ((1, 1, "c"), ⟨none, "pc", 30, 100⟩)]

/-- Concrete get_bsos parameters with a chosen limit, used to instantiate C6. -/
def c6Params (limit : Int) : GetBsosParams :=
  { user_id := 1, collection_id := 1, ids := [], ttl_floor := 0, newer := 0,
    sort := Sorting.newest, limit := limit, offset := 0 }

/-- C6: a negative limit returns all matching rows with more false and offset
zero; a zero limit returns no rows with more true exactly when a row matches
and offset zero; a positive limit returns at most limit rows, reports more
exactly when matching rows exist past the page, and echoes the input offset
plus the returned row count when more is set and zero otherwise. -/
theorem C6_get_bsos_paging (st : BsoStore) (p : GetBsosParams) :
    (p.limit < 0 →
      (get_bsos st p).bsos = matchedBsos st p
        ∧ (get_bsos st p).more = false
        ∧ (get_bsos st p).offset = 0)
    ∧ (p.limit = 0 →
      (get_bsos st p).bsos = []
        ∧ ((get_bsos st p).more = true ↔ matchedBsos st p ≠ [])
        ∧ (get_bsos st p).offset = 0)
    ∧ (0 < p.limit →
      (get_bsos st p).bsos.length ≤ p.limit.toNat
        ∧ ((get_bsos st p).more = true ↔
            p.offset.toNat + p.limit.toNat < (matchedBsos st p).length)
        ∧ (get_bsos st p).offset
            = (if (get_bsos st p).more then p.offset + (get_bsos st p).bsos.length else 0)) := by
  refine ⟨fun hneg => ?_, fun hzero => ?_, fun hpos => ?_⟩
  · simp [get_bsos, hneg]
  · simp [get_bsos, hzero, List.isEmpty_iff]
  · have hn : ¬ p.limit < 0 := by omega
    have hz : ¬ p.limit = 0 := by omega
    refine ⟨?_, ?_, ?_⟩
    · simp only [get_bsos, if_neg hn, if_neg hz]
      exact le_trans (List.length_take_le _ _) (le_refl _)
    · simp only [get_bsos, if_neg hn, if_neg hz, decide_eq_true_eq, List.length_drop]
      omega
    · simp only [get_bsos, if_neg hn, if_neg hz]

/-- Closed instance discharging the hypotheses of C6_get_bsos_paging at a
store of three matching records, one for each limit regime. -/
theorem C6_get_bsos_paging_witness :
    ((-1 : Int) < 0
      ∧ (get_bsos c6Store (c6Params (-1))).bsos = matchedBsos c6Store (c6Params (-1))
      ∧ (get_bsos c6Store (c6Params (-1))).more = false
      ∧ (get_bsos c6Store (c6Params (-1))).offset = 0)
    ∧ ((0 : Int) = 0
      ∧ (get_bsos c6Store (c6Params 0)).bsos = []
      ∧ ((get_bsos c6Store (c6Params 0)).more = true ↔ matchedBsos c6Store (c6Params 0) ≠ [])
      ∧ (get_bsos c6Store (c6Params 0)).offset = 0)
    ∧ ((0 : Int) < 2
      ∧ (get_bsos c6Store (c6Params 2)).bsos.length ≤ (2 : Int).toNat
      ∧ ((get_bsos c6Store (c6Params 2)).more = true ↔
          (0 : Int).toNat + (2 : Int).toNat < (matchedBsos c6Store (c6Params 2)).length)
      ∧ (get_bsos c6Store (c6Params 2)).offset
          = (if (get_bsos c6Store (c6Params 2)).more then
              0 + (get_bsos c6Store (c6Params 2)).bsos.length else 0)) :=
  ⟨⟨by decide, by
      have h := (C6_get_bsos_paging c6Store (c6Params (-1))).1 (by decide)
      exact h.1, by
      exact ((C6_get_bsos_paging c6Store (c6Params (-1))).1 (by decide)).2.1, by
      exact ((C6_get_bsos_paging c6Store (c6Params (-1))).1 (by decide)).2.2⟩,
    ⟨rfl, by
      exact ((C6_get_bsos_paging c6Store (c6Params 0)).2.1 rfl).1, by
      exact ((C6_get_bsos_paging c6Store (c6Params 0)).2.1 rfl).2.1, by
      exact ((C6_get_bsos_paging c6Store (c6Params 0)).2.1 rfl).2.2⟩,
    ⟨by decide, by
      exact ((C6_get_bsos_paging c6Store (c6Params 2)).2.2 (by decide)).1, by
      exact ((C6_get_bsos_paging c6Store (c6Params 2)).2.2 (by decide)).2.1, by
      exact ((C6_get_bsos_paging c6Store (c6Params 2)).2.2 (by decide)).2.2⟩⟩


/-! ### Collection registry (claim C8) -/

/-- The 13 reserved collection names and their fixed ids, installed by the
migration runner on a fresh database (spec section 3 and the expected rows of
the static_collection_id test). -/
def reservedCollections : List (String × Int) :=
  [("clients", 1), ("crypto", 2), ("forms", 3), ("history", 4), ("keys", 5),
   ("meta", 6), ("bookmarks", 7), ("prefs", 8), ("tabs", 9), ("passwords", 10),
   ("addons", 11), ("addresses", 12), ("creditcards", 13)]

/-- The collections table: name to id. -/
structure CollectionRegistry where
  rows : List (String × Int)
deriving DecidableEq

/-- A fresh database holds exactly the reserved collections. -/
def freshRegistry : CollectionRegistry := ⟨reservedCollections⟩

/-- Error taxonomy of the storage core (spec section 7), restricted to the
kinds the verified operations can raise. -/
inductive DbError where
  | collectionNotFound
  | batchNotFound
  | quota (collection : String)
  | internal (msg : String)
deriving DecidableEq

deriving instance DecidableEq for Except

def lookupCollection (reg : CollectionRegistry) (name : String) : Option Int :=
  (reg.rows.find? (fun e => decide (e.1 = name))).map (fun e => e.2)

/-- Modelled from the spec: get_collection_id resolves a name to its id and
fails with CollectionNotFound on an unknown name (the mysql models file is
absent). -/
def get_collection_id (reg : CollectionRegistry) (name : String) : Except DbError Int :=
  match lookupCollection reg name with
  | some id => Except.ok id
  | none => Except.error DbError.collectionNotFound

def maxCollectionId (reg : CollectionRegistry) : Int :=
  reg.rows.foldr (fun e acc => max e.2 acc) 0

/-- Modelled from the spec: create_collection inserts a new collection with an
id of at least 100; an existing name returns its existing id (upsert by
name). -/
def create_collection (reg : CollectionRegistry) (name : String) : Int × CollectionRegistry :=
  match lookupCollection reg name with
  | some id => (id, reg)
  | none =>
      ((max 100 (maxCollectionId reg + 1)),
        ⟨(name, max 100 (maxCollectionId reg + 1)) :: reg.rows⟩)

/-- C8: on a fresh database every one of the 13 reserved names resolves to its
reserved id, and create_collection on a name not yet present returns an id of
at least 100. -/
theorem C8_reserved_ids (reg : CollectionRegistry) (name : String)
    (hnew : lookupCollection reg name = none) :
    (∀ e ∈ reservedCollections, get_collection_id freshRegistry e.1 = Except.ok e.2)
    ∧ 100 ≤ (create_collection reg name).1 := by
  constructor
  · decide
  · unfold create_collection
    rw [hnew]
    exact le_max_left _ _

/-- Closed instance discharging the hypothesis of C8_reserved_ids on a fresh
database and the new name col1. -/
theorem C8_reserved_ids_witness :
    lookupCollection freshRegistry "col1" = none
    ∧ ((∀ e ∈ reservedCollections, get_collection_id freshRegistry e.1 = Except.ok e.2)
       ∧ 100 ≤ (create_collection freshRegistry "col1").1) :=
  ⟨by decide, C8_reserved_ids freshRegistry "col1" (by decide)⟩

/-! ## Distributed-backend batch engine (src/db/spanner/batch.rs) -/

/-- Protobuf Value as the append path uses it: either a NULL value or a
string value (as_value renders every bound field to its string form). -/
abbrev Value := Option String

/-- The get_string_value accessor of a protobuf Value: the empty string on a
NULL value. -/
def getStringValue (v : Value) : String := v.getD ""

/-- HawkIdentifier: the (fxa_uid, fxa_kid) user pair. -/
structure HawkIdentifier where
  fxa_uid : String
  fxa_kid : String
deriving DecidableEq

/-- Row of the batches table.  The rfc3339 expiry column is modelled as the
millisecond instant it encodes. -/
structure BatchRow where
  fxa_uid : String
  fxa_kid : String
  collection_id : Int
  batch_id : String
  expiry : Int
deriving DecidableEq

/-- Row of the batch_bsos staging table; sortindex, payload and ttl are
nullable and arrive as protobuf values. -/
structure BatchBsoRow where
  fxa_uid : String
  fxa_kid : String
  collection_id : Int
  batch_id : String
  batch_bso_id : String
  sortindex : Value
  payload : Value
  ttl : Value
deriving DecidableEq

/-- Row of the user_collections table; modified is kept in its rfc3339 string
form, and the count and total_bytes columns are written only when quotas are
enabled. -/
structure UserCollectionRow where
  fxa_uid : String
  fxa_kid : String
  collection_id : Int
  modified : String
  count : Option Nat
  total_bytes : Option Nat
deriving DecidableEq

/-- The tables the batch engine touches, plus the collections registry used
to resolve collection names. -/
structure SpannerState where
  collections : List (String × Int)
  user_collections : List UserCollectionRow
  batches : List BatchRow
  batch_bsos : List BatchBsoRow
deriving DecidableEq

/-- Connection-level context of SpannerDb: the quota configuration, the
transaction timestamp (db.timestamp() and CURRENT_TIMESTAMP()), and the UUID
that Uuid::new_v4 will produce for the next create. -/
structure SpannerDb where
  quota : Nat
  quota_enabled : Bool
  now : Int
  fresh_batch_id : String
deriving DecidableEq

/-- Incoming BSO of an append (params::PostCollectionBso). -/
structure PostCollectionBso where
  id : String
  sortindex : Option Int
  payload : Option String
  ttl : Option Nat
deriving DecidableEq

/-- results::CreateBatch: the running size and the batch id. -/
structure CreateBatch where
  size : Option Nat
  id : String
deriving DecidableEq

/-- params::CreateBatch. -/
structure CreateBatchParams where
  user_id : HawkIdentifier
  collection : String
  bsos : List PostCollectionBso
deriving DecidableEq

/-- params::AppendToBatch. -/
structure AppendToBatchParams where
  user_id : HawkIdentifier
  collection : String
  batch : CreateBatch
  bsos : List PostCollectionBso
deriving DecidableEq

/-- params::GetBatch, also standing in for params::ValidateBatch, which holds
the same fields. -/
structure GetBatchParams where
  user_id : HawkIdentifier
  collection : String
  id : String
deriving DecidableEq

/-- Modelled from the spec: collection-name resolution for the distributed
backend (get_collection_id_async lives in the absent models file). -/
def get_collection_id_async (st : SpannerState) (name : String) : Except DbError Int :=
  match (st.collections.find? (fun e => decide (e.1 = name))).map (fun e => e.2) with
  | some id => Except.ok id
  | none => Except.error DbError.collectionNotFound

/-- Total bytes recorded in user_collections for one user and collection,
zero when the row or the column is absent. -/
def totalBytesOf (st : SpannerState) (user : HawkIdentifier) (cid : Int) : Nat :=
  ((st.user_collections.find? (fun r =>
      decide (r.fxa_uid = user.fxa_uid) && decide (r.fxa_kid = user.fxa_kid)
        && decide (r.collection_id = cid))).bind (fun r => r.total_bytes)).getD 0

/-- Modelled from the spec: check_quota returns the collection's current
total_bytes when quotas are enabled and None otherwise (the models file
defining it is absent). -/
def check_quota (db : SpannerDb) (st : SpannerState) (user : HawkIdentifier)
    (collection : String) (cid : Int) : Option Nat :=
  if db.quota_enabled then some (totalBytesOf st user cid) else none

/-- The exist_idx staging key of do_append_async:
collection_id::batch_id::bso_id. -/
def existIdx (collection_id batch_id bso_id : String) : String :=
  collection_id ++ "::" ++ batch_id ++ "::" ++ bso_id

/-- The prefetch of do_append_async: the exist_idx keys of every staging row
of this user (the query filters only on fxa_uid and fxa_kid). -/
def existingIdxSet (st : SpannerState) (user : HawkIdentifier) : List String :=
  (st.batch_bsos.filter (fun r =>
      decide (r.fxa_uid = user.fxa_uid) && decide (r.fxa_kid = user.fxa_kid))).map
    (fun r => existIdx (toString r.collection_id) r.batch_id r.batch_bso_id)

/-- The exist_idx key of an incoming BSO of one append call,
exist_idx(collection_id.to_string(), batch.id, bso.id). -/
def idxOfBso (collection_id : Int) (batch_id : String) (b : PostCollectionBso) : String :=
  existIdx (toString collection_id) batch_id b.id

/-- The UpdateRecord accumulator of do_append_async. -/
structure UpdateRecord where
  sortindex : Value
  ttl : Value
  bso_id : String
  payload : String
deriving DecidableEq

/-- Outcome of the classification loop of do_append_async. -/
structure ClassifyResult where
  ins : List BatchBsoRow
  upd : List UpdateRecord
  size : Nat
deriving DecidableEq

/-- Length contributed to running_size by one incoming BSO: the length of its
payload when the payload value is not NULL. -/
def payloadLen (b : PostCollectionBso) : Nat :=
  if b.payload.isSome then (getStringValue b.payload).length else 0

/-- The classification loop of do_append_async: an incoming BSO whose
exist_idx is already present (in staging, or earlier in this very call)
becomes an UpdateRecord; every other becomes a row of the bulk insert and its
key joins the existing set; running_size accumulates the length of every
non-null payload. -/
def classifyBsos (user : HawkIdentifier) (collection_id : Int) (batch_id : String) :
    List PostCollectionBso → List String → ClassifyResult
  | [], _ => ⟨[], [], 0⟩
  | bso :: rest, existing =>
      if idxOfBso collection_id batch_id bso ∈ existing then
        let r := classifyBsos user collection_id batch_id rest existing
        ⟨r.ins,
          ⟨bso.sortindex.map (fun s => toString s), bso.ttl.map (fun t => toString t),
            bso.id, getStringValue bso.payload⟩ :: r.upd,
          payloadLen bso + r.size⟩
      else
        let r := classifyBsos user collection_id batch_id rest
          (idxOfBso collection_id batch_id bso :: existing)
        ⟨⟨user.fxa_uid, user.fxa_kid, collection_id, batch_id, bso.id,
            bso.sortindex.map (fun s => toString s), bso.payload,
            bso.ttl.map (fun t => toString t)⟩ :: r.ins,
          r.upd,
          payloadLen bso + r.size⟩

/-- Parameter names referenced by the staging UPDATE statement
(UPDATE batch_bsos SET sortindex, payload, ttl WHERE fxa_uid, fxa_kid,
collection_id, batch_id, batch_bso_id). -/
def updateSqlParamRefs : List String :=
  ["sortindex", "payload", "ttl", "fxa_uid", "fxa_kid", "collection_id",
   "batch_id", "batch_bso_id"]

/-- The parameter map the source builds for that statement.  Note the last
binding: the staged bso id is bound under the name bso_id although the
statement references the parameter batch_bso_id. -/
def updateDmlParams (user : HawkIdentifier) (collection_id : Int) (batch_id : String)
    (val : UpdateRecord) : List (String × String) :=
  [("sortindex", getStringValue val.sortindex), ("payload", val.payload),
   ("ttl", getStringValue val.ttl), ("fxa_uid", user.fxa_uid),
   ("fxa_kid", user.fxa_kid), ("collection_id", toString collection_id),
   ("batch_id", batch_id), ("bso_id", val.bso_id)]

def lookupParam (ps : List (String × String)) (n : String) : Option String :=
  (ps.find? (fun e => decide (e.1 = n))).map (fun e => e.2)

def lookupParamD (ps : List (String × String)) (n : String) : String :=
  (lookupParam ps n).getD ""

/-- Executing one per-row staging UPDATE: when every parameter the statement
references is bound, the matching row's sortindex, payload and ttl columns
are set from the bound values; an unbound parameter makes the backend reject
the statement. -/
def execUpdateDml (db : SpannerDb) (st : SpannerState) (user : HawkIdentifier)
    (collection_id : Int) (batch_id : String) (val : UpdateRecord) :
    Except DbError SpannerState :=
  if updateSqlParamRefs.all
      (fun n => (lookupParam (updateDmlParams user collection_id batch_id val) n).isSome) then
    Except.ok { st with batch_bsos := st.batch_bsos.map (fun r =>
      if decide (r.fxa_uid = lookupParamD (updateDmlParams user collection_id batch_id val) "fxa_uid")
        && decide (r.fxa_kid = lookupParamD (updateDmlParams user collection_id batch_id val) "fxa_kid")
        && decide (toString r.collection_id
            = lookupParamD (updateDmlParams user collection_id batch_id val) "collection_id")
        && decide (r.batch_id = lookupParamD (updateDmlParams user collection_id batch_id val) "batch_id")
        && decide (r.batch_bso_id
            = lookupParamD (updateDmlParams user collection_id batch_id val) "batch_bso_id") then
        { r with
          sortindex := some (lookupParamD (updateDmlParams user collection_id batch_id val) "sortindex")
          payload := some (lookupParamD (updateDmlParams user collection_id batch_id val) "payload")
          ttl := some (lookupParamD (updateDmlParams user collection_id batch_id val) "ttl") }
      else r) }
  else Except.error (DbError.internal "unbound query parameter batch_bso_id")

/-- The per-row update loop of do_append_async. -/
def execUpdates (db : SpannerDb) (user : HawkIdentifier) (collection_id : Int)
    (batch_id : String) : List UpdateRecord → SpannerState → SpannerState × Except DbError Unit
  | [], st => (st, Except.ok ())
  | val :: rest, st =>
      match execUpdateDml db st user collection_id batch_id val with
      | Except.ok st1 => execUpdates db user collection_id batch_id rest st1
      | Except.error e => (st, Except.error e)

/-- The write phase of do_append_async: the bulk UNNEST insert of the new
staging rows, then the per-row updates. -/
def doAppendWrites (db : SpannerDb) (st : SpannerState) (user_id : HawkIdentifier)
    (collection_id : Int) (batch : CreateBatch) (ins : List BatchBsoRow)
    (upd : List UpdateRecord) : SpannerState × Except DbError Unit :=
  let st1 := if ins.isEmpty then st else { st with batch_bsos := st.batch_bsos ++ ins }
  if upd.isEmpty then (st1, Except.ok ())
  else execUpdates db user_id collection_id batch.id upd st1

/-- Embedding of do_append_async: prefetch the user's staging keys, classify
the incoming BSOs into bulk inserts and per-row updates while accumulating
running_size, fail with Quota before any write when the batch size plus
running_size reaches the quota, then perform the writes. -/
def do_append_async (db : SpannerDb) (st : SpannerState) (user_id : HawkIdentifier)
    (collection_id : Int) (batch : CreateBatch) (bsos : List PostCollectionBso)
    (collection : String) : SpannerState × Except DbError Unit :=
  match batch.size with
  | some size =>
      if db.quota ≤ size + (classifyBsos user_id collection_id batch.id bsos
          (existingIdxSet st user_id)).size then
        (st, Except.error (DbError.quota collection))
      else
        doAppendWrites db st user_id collection_id batch
          (classifyBsos user_id collection_id batch.id bsos (existingIdxSet st user_id)).ins
          (classifyBsos user_id collection_id batch.id bsos (existingIdxSet st user_id)).upd
  | none =>
      doAppendWrites db st user_id collection_id batch
        (classifyBsos user_id collection_id batch.id bsos (existingIdxSet st user_id)).ins
        (classifyBsos user_id collection_id batch.id bsos (existingIdxSet st user_id)).upd

/-- Row predicate of the batch-lookup query: same user, collection and batch
id, expiry strictly beyond CURRENT_TIMESTAMP(). -/
def batchRowLive (db : SpannerDb) (user : HawkIdentifier) (cid : Int) (batch_id : String)
    (b : BatchRow) : Bool :=
  decide (b.fxa_uid = user.fxa_uid) && decide (b.fxa_kid = user.fxa_kid)
    && decide (b.collection_id = cid) && decide (b.batch_id = batch_id)
    && decide (db.now < b.expiry)

/-- Embedding of get_async: resolve the collection, then return the batch id
iff a batches row for it exists with expiry strictly in the future. -/
def get_async (db : SpannerDb) (st : SpannerState) (p : GetBatchParams) :
    Except DbError (Option String) :=
  match get_collection_id_async st p.collection with
  | Except.error e => Except.error e
  | Except.ok cid =>
      Except.ok (if st.batches.any (batchRowLive db p.user_id cid p.id) then some p.id else none)

/-- Embedding of validate_async: true iff get_async finds a live batch. -/
def validate_async (db : SpannerDb) (st : SpannerState) (p : GetBatchParams) :
    Except DbError Bool :=
  match get_async db st p with
  | Except.error e => Except.error e
  | Except.ok b => Except.ok b.isSome

/-- The size seeding at the top of append_async: when check_quota reports a
current size, the batch's size becomes that size plus the incoming size. -/
def seedBatchSize (db : SpannerDb) (st : SpannerState) (p : AppendToBatchParams)
    (collection_id : Int) : CreateBatch :=
  match check_quota db st p.user_id p.collection collection_id with
  | some size => { p.batch with size := some (size + p.batch.size.getD 0) }
  | none => p.batch

/-- Embedding of append_async: resolve the collection, seed the batch size
from check_quota, fail with BatchNotFound unless validate_async finds a live
batch, then run do_append_async.  The source resolves the collection id a
second time before the append; the lookup is deterministic, so it is resolved
once here. -/
def append_async (db : SpannerDb) (st : SpannerState) (p : AppendToBatchParams) :
    SpannerState × Except DbError Unit :=
  match get_collection_id_async st p.collection with
  | Except.error e => (st, Except.error e)
  | Except.ok collection_id =>
      match validate_async db st
          ⟨p.user_id, p.collection, (seedBatchSize db st p collection_id).id⟩ with
      | Except.error e => (st, Except.error e)
      | Except.ok true =>
          do_append_async db st p.user_id collection_id
            (seedBatchSize db st p collection_id) p.bsos p.collection
      | Except.ok false => (st, Except.error DbError.batchNotFound)

/-- Modelled from the spec: PRETOUCH_TS, the sentinel modified value inserted
by pretouch (the constant lives in the absent models file; its exact literal
is irrelevant to the claims). -/
def PRETOUCH_TS : String := "0001-01-01T00:00:00.00Z"

/-- Modelled from the spec: BATCH_LIFETIME, the fixed validity window of a
batch, about two hours, in milliseconds (the constant lives outside the
source tree). -/
def BATCH_LIFETIME : Int := 7200000

/-- Embedding of pretouch_collection_async: insert a user_collections parent
row carrying the sentinel modified value when none exists, with zeroed quota
counters exactly when quotas are enabled. -/
def pretouch_collection_async (db : SpannerDb) (st : SpannerState)
    (user : HawkIdentifier) (collection_id : Int) : SpannerState :=
  if st.user_collections.any (fun r =>
      decide (r.fxa_uid = user.fxa_uid) && decide (r.fxa_kid = user.fxa_kid)
        && decide (r.collection_id = collection_id)) then st
  else
    { st with user_collections := st.user_collections ++
        [if db.quota_enabled then
          ⟨user.fxa_uid, user.fxa_kid, collection_id, PRETOUCH_TS, some 0, some 0⟩
         else
          ⟨user.fxa_uid, user.fxa_kid, collection_id, PRETOUCH_TS, none, none⟩] }

/-- Embedding of create_async: generate the batch id, resolve the collection,
pretouch the parent row, read check_quota to seed the returned size, insert
the batches row with expiry now + BATCH_LIFETIME, then append the initial
BSOs.  The returned record is the one built before the append. -/
def create_async (db : SpannerDb) (st : SpannerState) (p : CreateBatchParams) :
    SpannerState × Except DbError CreateBatch :=
  match get_collection_id_async st p.collection with
  | Except.error e => (st, Except.error e)
  | Except.ok collection_id =>
      match do_append_async db
          { pretouch_collection_async db st p.user_id collection_id with
            batches := (pretouch_collection_async db st p.user_id collection_id).batches ++
              [⟨p.user_id.fxa_uid, p.user_id.fxa_kid, collection_id, db.fresh_batch_id,
                db.now + BATCH_LIFETIME⟩] }
          p.user_id collection_id
          ⟨check_quota db (pretouch_collection_async db st p.user_id collection_id)
              p.user_id p.collection collection_id, db.fresh_batch_id⟩
          p.bsos p.collection with
      | (st3, Except.ok _) =>
          (st3, Except.ok ⟨check_quota db (pretouch_collection_async db st p.user_id collection_id)
              p.user_id p.collection collection_id, db.fresh_batch_id⟩)
      | (st3, Except.error e) => (st3, Except.error e)

/-! ### Batch id validation (claim C7) -/

/-- Hexadecimal digit test of the UUID parser. -/
def isHexDigitChar (c : Char) : Bool :=
  (decide ('0' ≤ c) && decide (c ≤ '9')) || (decide ('a' ≤ c) && decide (c ≤ 'f'))
    || (decide ('A' ≤ c) && decide (c ≤ 'F'))

/-- Hyphenated UUID form: 36 characters, hyphens at positions 8, 13, 18 and
23, hexadecimal digits elsewhere. -/
def uuidHyphenatedOk (cs : List Char) : Bool :=
  decide (cs.length = 36) && cs.enum.all (fun e =>
    if e.1 = 8 ∨ e.1 = 13 ∨ e.1 = 18 ∨ e.1 = 23 then decide (e.2 = '-')
    else isHexDigitChar e.2)

/-- Modelled from the spec: the batch id is an opaque string parsable as a
UUID.  This follows the uuid crate parser that validate_batch_id invokes
through Uuid::from_str, which accepts the simple 32-digit form, the
hyphenated form and the urn-prefixed hyphenated form of a UUID of any
version; no version nibble is checked. -/
def uuidFromStrOk (s : String) : Bool :=
  match s.data with
  | 'u' :: 'r' :: 'n' :: ':' :: 'u' :: 'u' :: 'i' :: 'd' :: ':' :: rest =>
      uuidHyphenatedOk rest
  | cs =>
      if cs.length = 32 then cs.all isHexDigitChar else uuidHyphenatedOk cs

/-- Position of the version nibble: character 12 of the simple form,
character 14 of the hyphenated form, after any urn prefix. -/
def uuidVersionChar (s : String) : Char :=
  match s.data with
  | 'u' :: 'r' :: 'n' :: ':' :: 'u' :: 'u' :: 'i' :: 'd' :: ':' :: rest =>
      rest.getD 14 ' '
  | cs => if cs.length = 32 then cs.getD 12 ' ' else cs.getD 14 ' '

/-- A UUID v4 string in the sense of the claim: a parsable UUID whose version
nibble is 4. -/
def isUuidV4Str (s : String) : Bool :=
  uuidFromStrOk s && decide (uuidVersionChar s = '4')

/-- Embedding of validate_batch_id: Uuid::from_str on the id, any parse
failure wrapped as an Internal error. -/
def validate_batch_id (id : String) : Except DbError Unit :=
  if uuidFromStrOk id then Except.ok ()
  else Except.error (DbError.internal ("Invalid batch_id: " ++ id))

/-! ### Keys and counts of the staging table (claims C4 and C9) -/

/-- Full primary key of a staging row. -/
def rowPk (r : BatchBsoRow) : String × String × Int × String × String :=
  (r.fxa_uid, r.fxa_kid, r.collection_id, r.batch_id, r.batch_bso_id)

/-- The exist_idx key determined by a full primary key. -/
def pkIdx (k : String × String × Int × String × String) : String :=
  existIdx (toString k.2.2.1) k.2.2.2.1 k.2.2.2.2

/-- The exist_idx key of a staging row. -/
def idxOfRow (r : BatchBsoRow) : String :=
  existIdx (toString r.collection_id) r.batch_id r.batch_bso_id

/-- The exist_idx key of an UpdateRecord of one append call. -/
def idxOfUpd (collection_id : Int) (batch_id : String) (u : UpdateRecord) : String :=
  existIdx (toString collection_id) batch_id u.bso_id

/-- Total payload bytes of a list of incoming BSOs, counting only non-null
payloads. -/
def payloadBytes (bsos : List PostCollectionBso) : Nat :=
  (bsos.map payloadLen).sum

/-! ### Helper lemmas for the append path -/

theorem payloadBytes_cons (b : PostCollectionBso) (rest : List PostCollectionBso) :
    payloadBytes (b :: rest) = payloadLen b + payloadBytes rest := by
  simp [payloadBytes]

/-- running_size of the classification loop is the total length of the
non-null payloads, independently of the existing key set. -/
theorem classify_size (user : HawkIdentifier) (cid : Int) (bid : String)
    (bsos : List PostCollectionBso) (ex : List String) :
    (classifyBsos user cid bid bsos ex).size = payloadBytes bsos := by
  induction bsos generalizing ex with
  | nil => rfl
  | cons b rest ih =>
      rw [payloadBytes_cons]
      by_cases h : idxOfBso cid bid b ∈ ex
      · simp only [classifyBsos, if_pos h]
        rw [ih]
      · simp only [classifyBsos, if_neg h]
        rw [ih]

/-- The per-row staging UPDATE always fails: the statement references the
parameter batch_bso_id, but the params map binds the id under bso_id. -/
theorem execUpdateDml_eq (db : SpannerDb) (st : SpannerState) (user : HawkIdentifier)
    (cid : Int) (bid : String) (val : UpdateRecord) :
    execUpdateDml db st user cid bid val
      = Except.error (DbError.internal "unbound query parameter batch_bso_id") := rfl

theorem execUpdates_nil (db : SpannerDb) (user : HawkIdentifier) (cid : Int)
    (bid : String) (st : SpannerState) :
    execUpdates db user cid bid [] st = (st, Except.ok ()) := rfl

theorem execUpdates_cons (db : SpannerDb) (user : HawkIdentifier) (cid : Int)
    (bid : String) (val : UpdateRecord) (rest : List UpdateRecord) (st : SpannerState) :
    execUpdates db user cid bid (val :: rest) st
      = (st, Except.error (DbError.internal "unbound query parameter batch_bso_id")) := by
  rw [execUpdates, execUpdateDml_eq]

/-- Closed form of the write phase: the bulk insert happens, then the update
loop either is skipped or fails on its first row. -/
theorem doAppendWrites_eq (db : SpannerDb) (st : SpannerState) (user : HawkIdentifier)
    (cid : Int) (batch : CreateBatch) (ins : List BatchBsoRow) (upd : List UpdateRecord) :
    doAppendWrites db st user cid batch ins upd
      = ((if ins.isEmpty then st else { st with batch_bsos := st.batch_bsos ++ ins }),
         if upd.isEmpty then Except.ok ()
         else Except.error (DbError.internal "unbound query parameter batch_bso_id")) := by
  unfold doAppendWrites
  cases upd with
  | nil => simp
  | cons v rest => simp [execUpdates_cons]

theorem doAppendWrites_ne_batchNotFound (db : SpannerDb) (st : SpannerState)
    (user : HawkIdentifier) (cid : Int) (batch : CreateBatch) (ins : List BatchBsoRow)
    (upd : List UpdateRecord) :
    (doAppendWrites db st user cid batch ins upd).2 ≠ Except.error DbError.batchNotFound := by
  rw [doAppendWrites_eq]
  by_cases h : upd.isEmpty <;> simp [h]

/-- do_append_async never reports BatchNotFound: its only failures are the
quota error and the internal parameter-binding error of the update loop. -/
theorem do_append_ne_batchNotFound (db : SpannerDb) (st : SpannerState)
    (user : HawkIdentifier) (cid : Int) (batch : CreateBatch)
    (bsos : List PostCollectionBso) (collection : String) :
    (do_append_async db st user cid batch bsos collection).2
      ≠ Except.error DbError.batchNotFound := by
  unfold do_append_async
  cases hs : batch.size with
  | none =>
      show (doAppendWrites db st user cid batch
          (classifyBsos user cid batch.id bsos (existingIdxSet st user)).ins
          (classifyBsos user cid batch.id bsos (existingIdxSet st user)).upd).2
        ≠ Except.error DbError.batchNotFound
      exact doAppendWrites_ne_batchNotFound db st user cid batch _ _
  | some size =>
      show ((if db.quota ≤ size + (classifyBsos user cid batch.id bsos
            (existingIdxSet st user)).size then
          (st, Except.error (DbError.quota collection))
        else
          doAppendWrites db st user cid batch
            (classifyBsos user cid batch.id bsos (existingIdxSet st user)).ins
            (classifyBsos user cid batch.id bsos (existingIdxSet st user)).upd).2
        ≠ Except.error DbError.batchNotFound)
      by_cases hq : db.quota ≤ size + (classifyBsos user cid batch.id bsos
          (existingIdxSet st user)).size
      · simp [hq]
      · simp only [if_neg hq]
        exact doAppendWrites_ne_batchNotFound db st user cid batch _ _

/-! ### Claim C7 -/

/-- C7 fails as stated: the version-1 UUID string below is accepted by
validate_batch_id although it is not a UUID v4. -/
theorem C7_counterexample :
    validate_batch_id "00000000-0000-1000-8000-000000000000" = Except.ok ()
    ∧ isUuidV4Str "00000000-0000-1000-8000-000000000000" = false := by
  constructor
  · decide
  · decide

/-- C7 (amended): validate_batch_id succeeds iff the string parses as a UUID
of any version (simple, hyphenated or urn form); in particular every UUID v4
string is accepted, and a failure is an Internal error naming the malformed
batch id. -/
theorem C7_validate_uuid_any_version (id : String) :
    (validate_batch_id id = Except.ok () ↔ uuidFromStrOk id = true)
    ∧ (uuidFromStrOk id = false →
        validate_batch_id id
          = Except.error (DbError.internal ("Invalid batch_id: " ++ id)))
    ∧ (isUuidV4Str id = true → validate_batch_id id = Except.ok ()) := by
  refine ⟨?_, ?_, ?_⟩
  · unfold validate_batch_id
    by_cases h : uuidFromStrOk id = true
    · simp [h]
    · simp [h]
  · intro h
    unfold validate_batch_id
    simp [h]
  · intro h
    have hp : uuidFromStrOk id = true := by
      simp only [isUuidV4Str, Bool.and_eq_true] at h
      exact h.1
    unfold validate_batch_id
    simp [hp]

/-- Closed instance discharging the hypotheses of the amended C7 theorem at a
generated-style v4 batch id and at a malformed id. -/
theorem C7_validate_uuid_any_version_witness :
    (isUuidV4Str "93f36bd8a8e64f0f96be16b4be9f2f06" = true
      ∧ validate_batch_id "93f36bd8a8e64f0f96be16b4be9f2f06" = Except.ok ())
    ∧ (uuidFromStrOk "not-a-uuid" = false
      ∧ validate_batch_id "not-a-uuid"
          = Except.error (DbError.internal ("Invalid batch_id: " ++ "not-a-uuid"))) :=
  ⟨⟨by decide,
      (C7_validate_uuid_any_version "93f36bd8a8e64f0f96be16b4be9f2f06").2.2 (by decide)⟩,
    ⟨by decide,
      (C7_validate_uuid_any_version "not-a-uuid").2.1 (by decide)⟩⟩

theorem seedBatchSize_id (db : SpannerDb) (st : SpannerState) (p : AppendToBatchParams)
    (cid : Int) : (seedBatchSize db st p cid).id = p.batch.id := by
  unfold seedBatchSize
  cases check_quota db st p.user_id p.collection cid <;> rfl

/-- Reduction of append_async once the collection resolves: a live batch row
leads into do_append_async on the seeded batch, anything else is
BatchNotFound. -/
theorem append_async_eq (db : SpannerDb) (st : SpannerState) (p : AppendToBatchParams)
    (cid : Int) (hcid : get_collection_id_async st p.collection = Except.ok cid) :
    append_async db st p
      = if st.batches.any (batchRowLive db p.user_id cid p.batch.id) = true then
          do_append_async db st p.user_id cid (seedBatchSize db st p cid) p.bsos p.collection
        else (st, Except.error DbError.batchNotFound) := by
  have hval : validate_async db st ⟨p.user_id, p.collection, p.batch.id⟩
      = Except.ok (st.batches.any (batchRowLive db p.user_id cid p.batch.id)) := by
    simp only [validate_async, get_async, hcid]
    by_cases h : st.batches.any (batchRowLive db p.user_id cid p.batch.id) = true <;> simp [h]
  simp only [append_async, hcid, seedBatchSize_id]
  rw [hval]
  by_cases h : st.batches.any (batchRowLive db p.user_id cid p.batch.id) = true
  · simp [h]
  · simp [h]

/-! ### Claim C3 -/

/-- C3: with quotas enabled, an append whose seeded batch size (current
total_bytes plus the batch's incoming size) plus the total length of the
incoming non-null payloads reaches quota_bytes fails with the Quota error and
leaves the state untouched: no staging row is inserted or updated. -/
theorem C3_quota_enforced (db : SpannerDb) (st : SpannerState) (p : AppendToBatchParams)
    (cid : Int) (hcid : get_collection_id_async st p.collection = Except.ok cid)
    (hquota : db.quota_enabled = true)
    (hlive : ∃ b ∈ st.batches, batchRowLive db p.user_id cid p.batch.id b = true)
    (hover : db.quota ≤ totalBytesOf st p.user_id cid + p.batch.size.getD 0
        + payloadBytes p.bsos) :
    append_async db st p = (st, Except.error (DbError.quota p.collection)) := by
  rw [append_async_eq db st p cid hcid, if_pos (List.any_eq_true.mpr hlive)]
  have hseed : seedBatchSize db st p cid
      = { p.batch with
          size := some (totalBytesOf st p.user_id cid + p.batch.size.getD 0) } := by
    unfold seedBatchSize
    simp [check_quota, hquota]
  rw [hseed]
  simp only [do_append_async, classify_size]
  rw [if_pos hover]

/-- Concrete quota-overflow fixture: quota 5 bytes, an empty collection, a
live batch, and an incoming payload of 7 bytes. -/
def c3Db : SpannerDb := ⟨5, true, 1000, "f"⟩

def c3State : SpannerState := ⟨[("col", 1)], [], [⟨"u", "k", 1, "b1", 2000⟩], []⟩

def c3Params : AppendToBatchParams :=
  ⟨⟨"u", "k"⟩, "col", ⟨some 0, "b1"⟩, [⟨"x", none, some "toolong", none⟩]⟩

/-- Closed instance discharging the hypotheses of C3_quota_enforced. -/
theorem C3_quota_enforced_witness :
    (get_collection_id_async c3State "col" = Except.ok 1
      ∧ c3Db.quota_enabled = true
      ∧ (∃ b ∈ c3State.batches, batchRowLive c3Db c3Params.user_id 1 c3Params.batch.id b = true)
      ∧ c3Db.quota ≤ totalBytesOf c3State c3Params.user_id 1
          + c3Params.batch.size.getD 0 + payloadBytes c3Params.bsos)
    ∧ append_async c3Db c3State c3Params
        = (c3State, Except.error (DbError.quota "col")) :=
  ⟨⟨by decide, by decide, by decide, by decide⟩,
    C3_quota_enforced c3Db c3State c3Params 1 (by decide) (by decide) (by decide) (by decide)⟩

/-! ### Claim C4 -/

/-- The user of the C4 fixture. -/
def c4User : HawkIdentifier := ⟨"u", "k"⟩

/-- A staging row already present for the C4 fixture, with a stored
sortindex. -/
def c4StagedRow : BatchBsoRow := ⟨"u", "k", 1, "b1", "bso1", some "5", some "old", none⟩

/-- The C4 fixture state: one live batch and a staged row for bso1. -/
def c4State : SpannerState := ⟨[("col", 1)], [], [⟨"u", "k", 1, "b1", 2000⟩], [c4StagedRow]⟩

/-- The C4 fixture database context (quotas disabled). -/
def c4Db : SpannerDb := ⟨0, false, 1000, "f"⟩

/-- An incoming BSO whose triple is already staged: it supplies a payload and
omits sortindex and ttl, so per the claim the staged row should keep
sortindex 5 and receive the new payload. -/
def c4Bso : PostCollectionBso := ⟨"bso1", none, some "new", none⟩

/-- C4 exercised at the failing input: the append classifies c4Bso as an
update, and the per-row UPDATE fails because the statement references the
parameter batch_bso_id while the params map binds the id under bso_id; the
call returns an Internal error and the staged row is not updated at all
(state unchanged), instead of replacing supplied fields and preserving
omitted ones. -/
theorem C4_update_binding_bug :
    do_append_async c4Db c4State c4User 1 ⟨none, "b1"⟩ [c4Bso] "col"
      = (c4State, Except.error (DbError.internal "unbound query parameter batch_bso_id")) := by
  decide

/-! ### Claim C5 -/

/-- C5: once the collection resolves, validate_async answers true exactly when
a batches row for (user, collection, batch id) exists with expiry strictly
beyond the current time, and append_async fails with BatchNotFound exactly
when no such live row exists (an expired batch behaves as absent for both). -/
theorem C5_batch_not_found (db : SpannerDb) (st : SpannerState) (p : AppendToBatchParams)
    (cid : Int) (hcid : get_collection_id_async st p.collection = Except.ok cid) :
    (validate_async db st ⟨p.user_id, p.collection, p.batch.id⟩ = Except.ok true
        ↔ ∃ b ∈ st.batches, batchRowLive db p.user_id cid p.batch.id b = true)
    ∧ ((append_async db st p).2 = Except.error DbError.batchNotFound
        ↔ ¬ ∃ b ∈ st.batches, batchRowLive db p.user_id cid p.batch.id b = true) := by
  have hval : validate_async db st ⟨p.user_id, p.collection, p.batch.id⟩
      = Except.ok (st.batches.any (batchRowLive db p.user_id cid p.batch.id)) := by
    simp only [validate_async, get_async, hcid]
    by_cases h : st.batches.any (batchRowLive db p.user_id cid p.batch.id) = true <;> simp [h]
  constructor
  · rw [hval]
    simp [List.any_eq_true]
  · rw [append_async_eq db st p cid hcid]
    by_cases hl : st.batches.any (batchRowLive db p.user_id cid p.batch.id) = true
    · rw [if_pos hl]
      constructor
      · intro h
        exact absurd h (do_append_ne_batchNotFound db st p.user_id cid
          (seedBatchSize db st p cid) p.bsos p.collection)
      · intro h
        exact absurd (List.any_eq_true.mp hl) h
    · rw [if_neg hl]
      simp only [List.any_eq_true] at hl
      exact iff_of_true rfl hl

/-- The C5 fixture state: one live batch (expiry 2000, now 1000) and one
expired batch (expiry 500) in another collection. -/
def c5State : SpannerState :=
  ⟨[("col", 1), ("other", 2)], [], [⟨"u", "k", 1, "b1", 2000⟩, ⟨"u", "k", 2, "b2", 500⟩], []⟩

/-- The C5 fixture database context. -/
def c5Db : SpannerDb := ⟨0, false, 1000, "f"⟩

/-- The C5 fixture append parameters, aimed at the live batch. -/
def c5Params : AppendToBatchParams := ⟨⟨"u", "k"⟩, "col", ⟨none, "b1"⟩, []⟩

/-- Closed instance discharging the hypothesis of C5_batch_not_found. -/
theorem C5_batch_not_found_witness :
    get_collection_id_async c5State "col" = Except.ok 1
    ∧ ((validate_async c5Db c5State ⟨c5Params.user_id, "col", c5Params.batch.id⟩
          = Except.ok true
        ↔ ∃ b ∈ c5State.batches, batchRowLive c5Db c5Params.user_id 1 c5Params.batch.id b = true)
      ∧ ((append_async c5Db c5State c5Params).2 = Except.error DbError.batchNotFound
        ↔ ¬ ∃ b ∈ c5State.batches,
            batchRowLive c5Db c5Params.user_id 1 c5Params.batch.id b = true)) :=
  ⟨by decide, C5_batch_not_found c5Db c5State c5Params 1 (by decide)⟩

/-! ### Claim C10 -/

/-- Pretouching leaves the collection's total_bytes reading unchanged: an
existing parent row is untouched, and a freshly inserted sentinel row carries
zero total_bytes, the same default an absent row yields. -/
theorem totalBytes_pretouch (db : SpannerDb) (st : SpannerState) (user : HawkIdentifier)
    (cid : Int) :
    totalBytesOf (pretouch_collection_async db st user cid) user cid
      = totalBytesOf st user cid := by
  unfold pretouch_collection_async
  by_cases h : st.user_collections.any (fun r =>
      decide (r.fxa_uid = user.fxa_uid) && decide (r.fxa_kid = user.fxa_kid)
        && decide (r.collection_id = cid)) = true
  · rw [if_pos h]
  · rw [if_neg h]
    have hnone : st.user_collections.find? (fun r =>
        decide (r.fxa_uid = user.fxa_uid) && decide (r.fxa_kid = user.fxa_kid)
          && decide (r.collection_id = cid)) = none := by
      rw [List.find?_eq_none]
      intro x hx hpx
      exact h (List.any_eq_true.mpr ⟨x, hx, hpx⟩)
    unfold totalBytesOf
    simp only [List.find?_append, hnone, Option.none_or]
    cases hq : db.quota_enabled <;> simp

/-- C10: whenever create_async succeeds, the returned record carries the
fresh batch id and a size equal to the collection's total_bytes as read
before the initial BSOs are appended when quotas are enabled, and None when
they are disabled; the incoming payload bytes never enter the returned
size. -/
theorem C10_create_size (db : SpannerDb) (st : SpannerState) (p : CreateBatchParams)
    (cid : Int) (hcid : get_collection_id_async st p.collection = Except.ok cid)
    (hok : (create_async db st p).2.isOk = true) :
    (create_async db st p).2
      = Except.ok ⟨if db.quota_enabled then some (totalBytesOf st p.user_id cid) else none,
          db.fresh_batch_id⟩ := by
  have hq : check_quota db (pretouch_collection_async db st p.user_id cid)
      p.user_id p.collection cid
      = if db.quota_enabled then some (totalBytesOf st p.user_id cid) else none := by
    unfold check_quota
    rw [totalBytes_pretouch]
  simp only [create_async, hcid] at hok ⊢
  cases hres : do_append_async db
      { pretouch_collection_async db st p.user_id cid with
        batches := (pretouch_collection_async db st p.user_id cid).batches ++
          [⟨p.user_id.fxa_uid, p.user_id.fxa_kid, cid, db.fresh_batch_id,
            db.now + BATCH_LIFETIME⟩] }
      p.user_id cid
      ⟨check_quota db (pretouch_collection_async db st p.user_id cid)
          p.user_id p.collection cid, db.fresh_batch_id⟩
      p.bsos p.collection with
  | mk st3 res =>
      cases res with
      | ok u => simp [hres, hq] at hok ⊢
      | error e => simp [hres, Except.isOk, Except.toBool] at hok

/-- The C10 fixture database context: quotas enabled, room to spare. -/
def c10Db : SpannerDb := ⟨100, true, 1000, "ba1"⟩

/-- The C10 fixture state: one known collection, nothing else. -/
def c10State : SpannerState := ⟨[("col", 1)], [], [], []⟩

/-- The C10 fixture create parameters, with a non-empty initial payload whose
bytes must not surface in the returned size. -/
def c10Params : CreateBatchParams := ⟨⟨"u", "k"⟩, "col", [⟨"bso1", some 1, some "xyz", some 10⟩]⟩

/-- Closed instance discharging the hypotheses of C10_create_size. -/
theorem C10_create_size_witness :
    (get_collection_id_async c10State "col" = Except.ok 1
      ∧ (create_async c10Db c10State c10Params).2.isOk = true)
    ∧ (create_async c10Db c10State c10Params).2
        = Except.ok ⟨if c10Db.quota_enabled then
              some (totalBytesOf c10State c10Params.user_id 1) else none,
            c10Db.fresh_batch_id⟩ :=
  ⟨⟨by decide, by decide⟩,
    C10_create_size c10Db c10State c10Params 1 (by decide) (by decide)⟩

/-! ### Claim C9 -/

/-- Insert-versus-update bookkeeping of one classification run, for any key:
an insert row for a key is produced exactly once, and only when the key is
not already in the existing set but occurs among the incoming BSOs; every
other occurrence of the key becomes an update record. -/
theorem classify_counts (user : HawkIdentifier) (cid : Int) (bid : String)
    (bsos : List PostCollectionBso) (ex : List String) (k : String) :
    ((classifyBsos user cid bid bsos ex).ins.map idxOfRow).count k
        = (if k ∈ ex then 0 else min 1 ((bsos.map (idxOfBso cid bid)).count k))
    ∧ ((classifyBsos user cid bid bsos ex).ins.map idxOfRow).count k
        + ((classifyBsos user cid bid bsos ex).upd.map (idxOfUpd cid bid)).count k
        = (bsos.map (idxOfBso cid bid)).count k := by
  induction bsos generalizing ex with
  | nil =>
      refine ⟨?_, ?_⟩
      · simp only [classifyBsos, List.map_nil, List.count_nil]
        split <;> simp
      · simp [classifyBsos]
  | cons b rest ih =>
      by_cases hmem : idxOfBso cid bid b ∈ ex
      · obtain ⟨ih1, ih2⟩ := ih ex
        have hidxUpd : idxOfUpd cid bid
            ⟨b.sortindex.map (fun s => toString s), b.ttl.map (fun t => toString t),
              b.id, getStringValue b.payload⟩ = idxOfBso cid bid b := rfl
        simp only [classifyBsos, if_pos hmem, List.map_cons, List.count_cons, beq_iff_eq,
          hidxUpd]
        refine ⟨?_, ?_⟩
        · by_cases hk : k ∈ ex
          · simp [ih1, hk]
          · have hne : ¬ (idxOfBso cid bid b = k) := fun he => hk (he ▸ hmem)
            simp [ih1, hk, hne]
        · by_cases hk : idxOfBso cid bid b = k
          · simp only [if_pos hk]
            omega
          · simp only [if_neg hk]
            omega
      · obtain ⟨ih1, ih2⟩ := ih (idxOfBso cid bid b :: ex)
        have hidxRow : idxOfRow
            ⟨user.fxa_uid, user.fxa_kid, cid, bid, b.id,
              b.sortindex.map (fun s => toString s), b.payload,
              b.ttl.map (fun t => toString t)⟩ = idxOfBso cid bid b := rfl
        simp only [classifyBsos, if_neg hmem, List.map_cons, List.count_cons, beq_iff_eq,
          hidxRow]
        refine ⟨?_, ?_⟩
        · by_cases hk : idxOfBso cid bid b = k
          · have hkex : ¬ k ∈ ex := fun hin => hmem (by rw [hk]; exact hin)
            rw [ih1]
            simp only [hk, List.mem_cons, true_or, if_true, if_neg hkex]
            simp
          · have hmc : (k ∈ idxOfBso cid bid b :: ex) ↔ k ∈ ex := by
              simp only [List.mem_cons]
              constructor
              · rintro (he | he)
                · exact absurd he.symm hk
                · exact he
              · exact fun he => Or.inr he
            rw [ih1]
            by_cases hke : k ∈ ex
            · simp [hk, hke, hmc]
            · simp [hk, hke, hmc]
        · by_cases hk : idxOfBso cid bid b = k
          · simp only [if_pos hk]
            omega
          · simp only [if_neg hk]
            omega

/-- Every row of the bulk insert belongs to the appending user, collection
and batch. -/
theorem classify_ins_fields (user : HawkIdentifier) (cid : Int) (bid : String)
    (bsos : List PostCollectionBso) (ex : List String) :
    ∀ r ∈ (classifyBsos user cid bid bsos ex).ins,
      r.fxa_uid = user.fxa_uid ∧ r.fxa_kid = user.fxa_kid := by
  induction bsos generalizing ex with
  | nil => simp [classifyBsos]
  | cons b rest ih =>
      by_cases hmem : idxOfBso cid bid b ∈ ex
      · simp only [classifyBsos, if_pos hmem]
        exact ih ex
      · simp only [classifyBsos, if_neg hmem]
        intro r hr
        rcases List.mem_cons.mp hr with heq | hr
        · rw [heq]
          exact ⟨rfl, rfl⟩
        · exact ih _ r hr

/-- The state component of do_append_async: either untouched (quota failure,
or nothing to insert) or the staging table extended by the bulk insert. -/
theorem do_append_fst (db : SpannerDb) (st : SpannerState) (user : HawkIdentifier)
    (cid : Int) (batch : CreateBatch) (bsos : List PostCollectionBso)
    (collection : String) :
    (do_append_async db st user cid batch bsos collection).1 = st
    ∨ (do_append_async db st user cid batch bsos collection).1
      = { st with batch_bsos := st.batch_bsos ++
          (classifyBsos user cid batch.id bsos (existingIdxSet st user)).ins } := by
  unfold do_append_async
  cases hs : batch.size with
  | none =>
      rw [show (match (none : Option Nat) with
          | some size =>
            if db.quota ≤ size + (classifyBsos user cid batch.id bsos
                (existingIdxSet st user)).size then
              (st, Except.error (DbError.quota collection))
            else
              doAppendWrites db st user cid batch
                (classifyBsos user cid batch.id bsos (existingIdxSet st user)).ins
                (classifyBsos user cid batch.id bsos (existingIdxSet st user)).upd
          | none =>
            doAppendWrites db st user cid batch
              (classifyBsos user cid batch.id bsos (existingIdxSet st user)).ins
              (classifyBsos user cid batch.id bsos (existingIdxSet st user)).upd)
          = doAppendWrites db st user cid batch
              (classifyBsos user cid batch.id bsos (existingIdxSet st user)).ins
              (classifyBsos user cid batch.id bsos (existingIdxSet st user)).upd from rfl]
      rw [doAppendWrites_eq]
      by_cases hi : (classifyBsos user cid batch.id bsos (existingIdxSet st user)).ins.isEmpty
      · exact Or.inl (by simp [hi])
      · exact Or.inr (by simp [hi])
  | some size =>
      by_cases hq : db.quota ≤ size + (classifyBsos user cid batch.id bsos
          (existingIdxSet st user)).size
      · exact Or.inl (by simp [hq])
      · rw [show (match (some size : Option Nat) with
            | some size =>
              if db.quota ≤ size + (classifyBsos user cid batch.id bsos
                  (existingIdxSet st user)).size then
                (st, Except.error (DbError.quota collection))
              else
                doAppendWrites db st user cid batch
                  (classifyBsos user cid batch.id bsos (existingIdxSet st user)).ins
                  (classifyBsos user cid batch.id bsos (existingIdxSet st user)).upd
            | none =>
              doAppendWrites db st user cid batch
                (classifyBsos user cid batch.id bsos (existingIdxSet st user)).ins
                (classifyBsos user cid batch.id bsos (existingIdxSet st user)).upd)
            = if db.quota ≤ size + (classifyBsos user cid batch.id bsos
                  (existingIdxSet st user)).size then
                (st, Except.error (DbError.quota collection))
              else
                doAppendWrites db st user cid batch
                  (classifyBsos user cid batch.id bsos (existingIdxSet st user)).ins
                  (classifyBsos user cid batch.id bsos (existingIdxSet st user)).upd from rfl]
        rw [if_neg hq, doAppendWrites_eq]
        by_cases hi : (classifyBsos user cid batch.id bsos (existingIdxSet st user)).ins.isEmpty
        · exact Or.inl (by simp [hi])
        · exact Or.inr (by simp [hi])

/-- do_append_async preserves uniqueness of the staging primary key: on any
outcome, the rows added are the bulk inserts, whose keys are pairwise
distinct and absent from the user's staged keys. -/
theorem staging_nodup_preserved (db : SpannerDb) (st : SpannerState) (user : HawkIdentifier)
    (cid : Int) (batch : CreateBatch) (bsos : List PostCollectionBso) (collection : String)
    (hnd : (st.batch_bsos.map rowPk).Nodup) :
    (((do_append_async db st user cid batch bsos collection).1).batch_bsos.map rowPk).Nodup := by
  rcases do_append_fst db st user cid batch bsos collection with h | h
  · rw [h]
    exact hnd
  · rw [h]
    show ((st.batch_bsos ++
        (classifyBsos user cid batch.id bsos (existingIdxSet st user)).ins).map rowPk).Nodup
    rw [List.map_append, List.nodup_append]
    refine ⟨hnd, ?_, ?_⟩
    · have hidx : ((classifyBsos user cid batch.id bsos
          (existingIdxSet st user)).ins.map idxOfRow).Nodup := by
        rw [List.nodup_iff_count_le_one]
        intro a
        rw [(classify_counts user cid batch.id bsos (existingIdxSet st user) a).1]
        split <;> omega
      have hcomp : (classifyBsos user cid batch.id bsos (existingIdxSet st user)).ins.map idxOfRow
          = ((classifyBsos user cid batch.id bsos
              (existingIdxSet st user)).ins.map rowPk).map pkIdx := by
        rw [List.map_map]
        rfl
      rw [hcomp] at hidx
      exact List.Nodup.of_map pkIdx hidx
    · intro a ha hains
      obtain ⟨s, hs, hsa⟩ := List.mem_map.mp ha
      obtain ⟨r, hr, hra⟩ := List.mem_map.mp hains
      have hfields := classify_ins_fields user cid batch.id bsos (existingIdxSet st user) r hr
      have hpk : rowPk s = rowPk r := hsa.trans hra.symm
      have hs_uid : s.fxa_uid = user.fxa_uid := by
        have h1 : s.fxa_uid = r.fxa_uid := congrArg (fun q => q.1) hpk
        rw [h1]
        exact hfields.1
      have hs_kid : s.fxa_kid = user.fxa_kid := by
        have h1 : s.fxa_kid = r.fxa_kid := congrArg (fun q => q.2.1) hpk
        rw [h1]
        exact hfields.2
      have hsmem : idxOfRow s ∈ existingIdxSet st user := by
        unfold existingIdxSet
        exact List.mem_map.mpr ⟨s, List.mem_filter.mpr ⟨hs, by simp [hs_uid, hs_kid]⟩, rfl⟩
      have hidxeq : idxOfRow s = idxOfRow r := by
        show pkIdx (rowPk s) = pkIdx (rowPk r)
        rw [hpk]
      have hpos : 0 < ((classifyBsos user cid batch.id bsos
          (existingIdxSet st user)).ins.map idxOfRow).count (idxOfRow r) :=
        List.count_pos_iff.mpr (List.mem_map.mpr ⟨r, hr, rfl⟩)
      rw [(classify_counts user cid batch.id bsos (existingIdxSet st user) (idxOfRow r)).1,
        if_pos (hidxeq ▸ hsmem)] at hpos
      exact absurd hpos (by omega)

/-- C9: within one append call, for every key, at most one staging row is
inserted, and only when the key is not already staged for the user; every
repeated occurrence of a key in the input list (and every occurrence of an
already-staged key) is classified as an update; consequently the staging
table's primary key stays unique after the call mutates the state. -/
theorem C9_append_staging_unique (db : SpannerDb) (st : SpannerState) (user : HawkIdentifier)
    (cid : Int) (batch : CreateBatch) (bsos : List PostCollectionBso) (collection : String)
    (k : String) (hnd : (st.batch_bsos.map rowPk).Nodup) :
    (((classifyBsos user cid batch.id bsos (existingIdxSet st user)).ins.map idxOfRow).count k
        = (if k ∈ existingIdxSet st user then 0
           else min 1 ((bsos.map (idxOfBso cid batch.id)).count k))
      ∧ ((classifyBsos user cid batch.id bsos (existingIdxSet st user)).ins.map idxOfRow).count k
          + ((classifyBsos user cid batch.id bsos (existingIdxSet st user)).upd.map
              (idxOfUpd cid batch.id)).count k
        = (bsos.map (idxOfBso cid batch.id)).count k)
    ∧ (((do_append_async db st user cid batch bsos collection).1).batch_bsos.map rowPk).Nodup :=
  ⟨classify_counts user cid batch.id bsos (existingIdxSet st user) k,
    staging_nodup_preserved db st user cid batch bsos collection hnd⟩

/-- The C9 fixture database context. -/
def c9Db : SpannerDb := ⟨0, false, 1000, "f"⟩

/-- The C9 fixture state: one live batch and one staged row. -/
def c9State : SpannerState :=
  ⟨[("col", 1)], [], [⟨"u", "k", 1, "b1", 2000⟩],
    [⟨"u", "k", 1, "b1", "old1", none, some "p", none⟩]⟩

/-- The C9 fixture batch. -/
def c9Batch : CreateBatch := ⟨none, "b1"⟩

/-- The C9 fixture input: the same bso id appended twice in one call. -/
def c9Bsos : List PostCollectionBso :=
  [⟨"dup", none, some "a", none⟩, ⟨"dup", none, some "b", none⟩]

/-- Closed instance discharging the hypothesis of C9_append_staging_unique at
an input carrying a duplicated bso id. -/
theorem C9_append_staging_unique_witness :
    (c9State.batch_bsos.map rowPk).Nodup
    ∧ (((classifyBsos ⟨"u", "k"⟩ 1 c9Batch.id c9Bsos
            (existingIdxSet c9State ⟨"u", "k"⟩)).ins.map idxOfRow).count "1::b1::dup"
          = (if "1::b1::dup" ∈ existingIdxSet c9State ⟨"u", "k"⟩ then 0
             else min 1 ((c9Bsos.map (idxOfBso 1 c9Batch.id)).count "1::b1::dup"))
        ∧ ((classifyBsos ⟨"u", "k"⟩ 1 c9Batch.id c9Bsos
              (existingIdxSet c9State ⟨"u", "k"⟩)).ins.map idxOfRow).count "1::b1::dup"
            + ((classifyBsos ⟨"u", "k"⟩ 1 c9Batch.id c9Bsos
                (existingIdxSet c9State ⟨"u", "k"⟩)).upd.map
                  (idxOfUpd 1 c9Batch.id)).count "1::b1::dup"
          = (c9Bsos.map (idxOfBso 1 c9Batch.id)).count "1::b1::dup")
    ∧ (((do_append_async c9Db c9State ⟨"u", "k"⟩ 1 c9Batch c9Bsos
        "col").1).batch_bsos.map rowPk).Nodup :=
  ⟨by decide,
    C9_append_staging_unique c9Db c9State ⟨"u", "k"⟩ 1 c9Batch c9Bsos "col"
      "1::b1::dup" (by decide)⟩
